import Mathlib

/-!
Verification of the yeet dead-drop messenger (src/yeet/main.py) against its
specification. The Python source is shallowly embedded: each function becomes
a Lean function over explicit inputs standing for the external world (gpg
subprocess results, the gist HTTP response, the git working copy and remote),
and raised Python exceptions become an explicit error type.
-/

namespace Yeet

/-- Errors observable from one CLI invocation. `click` is a
`click.ClickException` carrying its message; `runtime` is a deliberately
raised `RuntimeError`; `py` is an unhandled Python exception such as
`TypeError`, `AttributeError`, `IndexError` or `StopIteration`; `proc` is a
`subprocess.CalledProcessError` from a `check=True` run, tagged with the
failing command. -/
inductive Err where
  | click (msg : String)
  | runtime (msg : String)
  | py (msg : String)
  | proc (cmd : String)
deriving DecidableEq, Repr

/-- Auxiliary: does `needle` occur as a contiguous run inside the character
list? This is the semantics of the Python `in` operator on strings. -/
def strContainsAux (needle : List Char) : List Char → Bool
  | [] => needle.isEmpty
  | c :: rest => needle.isPrefixOf (c :: rest) || strContainsAux needle rest

/-- Python `needle in hay` on strings: substring containment. -/
def pyIn (needle hay : String) : Bool :=
  strContainsAux needle.data hay.data

/-- Python `s.startswith(pre)`. -/
def pyStartsWith (s pre : String) : Bool :=
  pre.data.isPrefixOf s.data

/-- Auxiliary for `pySplitOn`: split a character list at every occurrence of
`sep`, keeping empty runs, as Python `str.split` with an explicit separator
does. The result is always non-empty. -/
def splitOnChar (sep : Char) : List Char → List (List Char)
  | [] => [[]]
  | c :: rest =>
    match splitOnChar sep rest with
    | [] => [[]]
    | h :: t => if c = sep then [] :: h :: t else (c :: h) :: t

/-- Python `s.split(sep)` for a one-character separator. -/
def pySplitOn (s : String) (sep : Char) : List String :=
  (splitOnChar sep s.data).map (fun l => ⟨l⟩)

/-- Result of one `subprocess.run` of `gpg --decrypt` with a status fd:
the exit code, captured stdout (the plaintext when decryption worked) and
the status-fd lines. -/
structure GpgRun where
  returncode : Int
  stdout : String
  statusLines : List String
deriving DecidableEq, Repr

def sigMissingMsg : String := "Unable to verify signature (VALIDSIG not found)"

def signerMismatchMsg : String := "Signature valid but from different sender"

def noneInStrMsg : String :=
  "TypeError: in <string> requires string as left operand, not NoneType"

/-- Embedding of `decrypt(encrypted, fingerprint)` (main.py lines 130-146).
The ciphertext itself is consumed by the gpg subprocess, whose outcome is the
`run` argument. The source never inspects `proc.returncode`: it only searches
the status lines for the first one containing the text " VALIDSIG ". If none
is found it raises the ClickException `sigMissingMsg`; otherwise it evaluates
`fingerprint not in sig_line`, a Python substring test over the whole status
line, which raises a `TypeError` when `fingerprint` is `None` (the caller
`from_` passes the unchecked result of `fingerprint_from_pattern`). On a contained
fingerprint it returns `proc.stdout`. -/
def decrypt (run : GpgRun) (fingerprint : Option String) : Except Err String :=
  match run.statusLines.find? (fun s => pyIn " VALIDSIG " s) with
  | none => .error (.click sigMissingMsg)
  | some sigLine =>
    match fingerprint with
    | none => .error (.py noneInStrMsg)
    | some fp =>
      if pyIn fp sigLine then .ok run.stdout
      else .error (.click signerMismatchMsg)

/-- Auxiliary for `fingerprint_from_pattern`: the Python code threads one
iterator through two `next` searches, so the search for the `fpr:` line only
scans the lines strictly after the first `pub:` line. This returns those
remaining lines, or `none` when no line starts with `pub:`. -/
def dropThroughPub : List String → Option (List String)
  | [] => none
  | l :: rest => if pyStartsWith l "pub:" then some rest else dropThroughPub rest

def indexErrMsg : String := "IndexError: list index out of range"

/-- Embedding of `fingerprint_from_pattern(pattern)` (main.py lines 113-127).
The input is the stdout of `gpg --list-keys --with-colons pattern`, split
into lines (the exit code is never consulted; a failing gpg simply yields no
`pub:` line). The code takes the FIRST line starting with `pub:` (however
many there are), then the first later line starting with `fpr:`, and returns
field 9 of that line; `fpr.split(":")[9]` raises `IndexError` when the line
has fewer than ten fields. It returns `None` when there is no `pub:` line or
no subsequent `fpr:` line. -/
def fingerprint_from_pattern (stdoutLines : List String) : Except Err (Option String) :=
  match dropThroughPub stdoutLines with
  | none => .ok none
  | some rest =>
    match rest.find? (fun l => pyStartsWith l "fpr:") with
    | none => .ok none
    | some fprLine =>
      match (pySplitOn fprLine (Char.ofNat 58)).get? 9 with
      | none => .error (.py indexErrMsg)
      | some f => .ok (some f)

/-- How many public-key entries a colon-format key listing shows: one `pub:`
line per entry. Used to state the resolver claims about the number of
matching entries. -/
def pubEntryCount (stdoutLines : List String) : Nat :=
  stdoutLines.countP (fun l => pyStartsWith l "pub:")

/-- Modelled from the spec: the decrypt status stream contains, if present, a
signature-valid assertion "carrying the signer fingerprint". In the gpg
status format that line reads `[GNUPG:] VALIDSIG <fingerprint> ...`, so the
signer identity reported by a status line is the token immediately after the
word `VALIDSIG`. This definition exists only to state the signer-equality
claim; `decrypt` itself never parses the line this way. -/
def signerOfStatusLine (line : String) : Option String :=
  match (pySplitOn line (Char.ofNat 32)).dropWhile (fun t => t != "VALIDSIG") with
  | _ :: fp :: _ => some fp
  | _ => none

/-- One file of a gist as the GitHub API reports it: its `content` field may
be absent, which Python `dict.get` turns into `None`. -/
structure GistFile where
  content : Option String
deriving DecidableEq, Repr

/-- The parsed JSON body of `GET /gists/{id}`: the `files` member is a JSON
object, i.e. an insertion-ordered mapping from filename to file record
(missing member behaves as the empty mapping via `gist.get("files", {})`). -/
structure Gist where
  files : List (String × GistFile)
deriving DecidableEq, Repr

def noFileMsg : String := "No file in gist"

def stopIterationMsg : String := "StopIteration"

/-- Embedding of `get_gist(id)` (main.py lines 42-49) after a successful HTTP
fetch (an unreachable endpoint raises inside `raise_for_status` and is out of
scope of the claims settled here). `next(iter(gist.get("files", {})))` is
called WITHOUT a default, so an empty `files` mapping raises `StopIteration`;
the guard `if not first_file` only fires when the first filename is the empty
string (a falsy str), in which case the intended `RuntimeError` is raised.
Otherwise the function returns the `content` field of the first file. -/
def get_gist (g : Gist) : Except Err (Option String) :=
  match g.files with
  | [] => .error (.py stopIterationMsg)
  | (firstName, firstFile) :: _ =>
    if firstName = "" then .error (.runtime noFileMsg)
    else .ok firstFile.content

/-- A recipient record, mirroring the pydantic `Receiver` model. -/
structure Receiver where
  nickname : String
  rx_gist_id : String
  tx_gist_url : String
deriving DecidableEq, Repr

/-- The registry, mirroring the pydantic `Config` model. -/
structure Config where
  receivers : List Receiver := []
deriving DecidableEq, Repr

/-- JSON values, as produced by `json.dump` and consumed by
`Config.model_validate_json`. Only the constructors the registry file can
use are modelled. -/
inductive Json where
  | str (s : String)
  | arr (elems : List Json)
  | obj (fields : List (String × Json))

/-- First binding of `key` in a JSON object (Python dicts have unique keys;
the list keeps insertion order). -/
def jLookup (fields : List (String × Json)) (key : String) : Option Json :=
  (fields.find? (fun kv => kv.fst == key)).map (fun kv => kv.snd)

def asStr : Json → Option String
  | .str s => some s
  | _ => none

def validationErrMsg : String := "pydantic ValidationError"

/-- Embedding of `save_config(config)` (main.py lines 37-39): the JSON value
`json.dump(config.model_dump())` writes to CONFIG_FILE. -/
def save_config (c : Config) : Json :=
  .obj [("receivers", .arr (c.receivers.map (fun r =>
    .obj [("nickname", .str r.nickname),
          ("rx_gist_id", .str r.rx_gist_id),
          ("tx_gist_url", .str r.tx_gist_url)])))]

/-- Pydantic validation of one receiver object: the three declared string
fields are required, extra members are ignored. -/
def parseReceiver : Json → Except Err Receiver
  | .obj fields =>
    match (jLookup fields "nickname").bind asStr,
          (jLookup fields "rx_gist_id").bind asStr,
          (jLookup fields "tx_gist_url").bind asStr with
    | some n, some rx, some tx => .ok ⟨n, rx, tx⟩
    | _, _, _ => .error (.py validationErrMsg)
  | _ => .error (.py validationErrMsg)

def parseReceivers : List Json → Except Err (List Receiver)
  | [] => .ok []
  | j :: rest =>
    match parseReceiver j, parseReceivers rest with
    | .ok r, .ok rs => .ok (r :: rs)
    | .error e, _ => .error e
    | _, .error e => .error e

/-- Embedding of `load_config()` (main.py lines 27-34). The registry file is
modelled after the external json layer: `none` is an empty file (the source
returns a default `Config()` before parsing), `some j` a file holding the
JSON value `j`, which `Config.model_validate_json` validates: the top level
must be an object; a missing `receivers` member falls back to the declared
default `[]`; otherwise it must be a list of valid receiver objects. -/
def load_config : Option Json → Except Err Config
  | none => .ok ⟨[]⟩
  | some (.obj fields) =>
    match jLookup fields "receivers" with
    | none => .ok ⟨[]⟩
    | some (.arr js) =>
      match parseReceivers js with
      | .ok rs => .ok ⟨rs⟩
      | .error e => .error e
    | some _ => .error (.py validationErrMsg)
  | some _ => .error (.py validationErrMsg)

/-- The local working copy at `CACHE_DIR/<nickname>/tx`. `originLines` is the
output of `git remote -v` for it; `headTree` is the tree of the commit at
HEAD (`none` on an unborn branch); `workTree` is the checked-out content,
as filename-content pairs, `.git` excluded. -/
structure LocalRepo where
  originLines : List String
  headTree : Option (List (String × String))
  workTree : List (String × String)
deriving DecidableEq, Repr

/-- The world one `set_gist` call touches: the current content of the mailbox repository (the latest revision of the remote) and the cached working copy, if
one exists. -/
structure World where
  remoteTree : List (String × String)
  localRepo : Option LocalRepo
deriving DecidableEq, Repr

/-- The `git remote -v` lines a fresh clone of `url` reports. -/
def remoteLinesFor (url : String) : List String :=
  ["origin\t" ++ url ++ " (fetch)", "origin\t" ++ url ++ " (push)"]

/-- Embedding of `ensure_repo_exists(path, url)` (main.py lines 52-70).
`git -C path remote -v` fails when no repository exists at the path; when it
succeeds the code clones anyway unless some output line contains `url` as a
substring (Python `url in x`). Cloning the reachable mailbox checks out its
current revision and sets its origin. -/
def mustClone (w : World) (url : String) : Bool :=
  match w.localRepo with
  | none => true
  | some repo => !(repo.originLines.any (fun x => pyIn url x))

def ensure_repo_exists (w : World) (url : String) : World :=
  if mustClone w url then
    { w with localRepo := some { originLines := remoteLinesFor url,
                                 headTree := some w.remoteTree,
                                 workTree := w.remoteTree } }
  else w

/-- Embedding of `set_repo_message(path, message)` (main.py lines 73-85):
every entry except `.git` is removed and a single `text.txt` holding
`message` is written. -/
def set_repo_message (repo : LocalRepo) (message : String) : LocalRepo :=
  { repo with workTree := [("text.txt", message)] }

/-- Embedding of `commit_and_push(path)` (main.py lines 88-103), each git
call with `check=True` so the first failing step raises
`CalledProcessError`. `git add` stages the whole working tree (additions and
deletions). `git commit -m updates` is run without `--allow-empty`, so git
exits non-zero when the staged tree equals the HEAD tree (or is empty on an
unborn branch): nothing to commit. `git push` then publishes HEAD as the
new revision of the mailbox (the single-writer push itself succeeding). -/
def nothingToCommit (repo : LocalRepo) : Bool :=
  match repo.headTree with
  | some t => decide (t = repo.workTree)
  | none => decide (repo.workTree = [])

def commit_and_push (w : World) : Option Err × World :=
  match w.localRepo with
  | none => (some (.proc "git add"), w)
  | some repo =>
    if nothingToCommit repo then (some (.proc "git commit"), w)
    else
      (none, { remoteTree := repo.workTree,
               localRepo := some { repo with headTree := some repo.workTree } })

/-- Embedding of `set_gist(nickname, gist_url, content)` (main.py lines
106-110): ensure the working copy tracks `gist_url`, replace its content with
one `text.txt` holding `content`, commit and push. -/
def set_gist (w : World) (gist_url : String) (content : String) : Option Err × World :=
  match (ensure_repo_exists w gist_url).localRepo with
  | none => (some (.proc "git add"), ensure_repo_exists w gist_url)
  | some repo =>
    commit_and_push { ensure_repo_exists w gist_url with
                      localRepo := some (set_repo_message repo content) }

def notFoundKeyMsg (nickname : String) : String :=
  "No GPG public key found for " ++ nickname

def alreadyConfiguredMsg (nickname : String) : String :=
  nickname ++ " is already configured"

def notFoundNickMsg (nickname : String) : String :=
  nickname ++ " not found"

/-- Python truthiness of the result of `fingerprint_from_pattern`: `None` and the
empty string are falsy. -/
def pyTruthy : Option String → Bool
  | none => false
  | some s => s != ""

/-- Embedding of the `add-receiver` command (main.py lines 174-186) as a
transformer of the persisted registry file: it returns the raised error (if
any) and the registry file after the call. The key lookup happens first
(`gpgListLines` is the stdout of the gpg listing for the nickname); then the
registry is loaded, the duplicate check runs over the loaded receivers, and
only the success path writes the file back via `save_config`. -/
def add_receiver (gpgListLines : List String) (cfgFile : Option Json)
    (nickname rx_gist_id tx_gist_url : String) : Option Err × Option Json :=
  match fingerprint_from_pattern gpgListLines with
  | .error e => (some e, cfgFile)
  | .ok fp =>
    if !(pyTruthy fp) then (some (.click (notFoundKeyMsg nickname)), cfgFile)
    else
      match load_config cfgFile with
      | .error e => (some e, cfgFile)
      | .ok config =>
        if config.receivers.any (fun r => r.nickname == nickname) then
          (some (.click (alreadyConfiguredMsg nickname)), cfgFile)
        else
          (none, some (save_config
            ⟨config.receivers ++ [⟨nickname, rx_gist_id, tx_gist_url⟩]⟩))

/-- The message input of the `to` command: `click.File("rb")` opens a named
file in binary mode so `read()` yields `bytes`, while the default
`sys.stdin` is a text stream whose `read()` yields `str`. -/
inductive PyData where
  | str (s : String)
  | bytes (b : String)
deriving DecidableEq, Repr

/-- Result of one `subprocess.run` of `gpg --encrypt --sign --armor` without
`text=True`: exit code, captured stdout (decoded to the armored ciphertext on
success) and captured stderr (a bytes object in the source). -/
structure EncRun where
  returncode : Int
  stdout : String
  stderr : String
deriving DecidableEq, Repr

def bytesEncodeMsg : String :=
  "AttributeError: bytes object has no attribute encode"

def bytesReadMsg : String :=
  "AttributeError: bytes object has no attribute read"

/-- Embedding of `encrypt(cleartext, receiver_fingerprint)` (main.py lines
149-158). `cleartext.encode()` is evaluated while building the subprocess
call: when the cleartext is `bytes` (message read from a file) this raises
`AttributeError` before gpg runs. On a non-zero exit the source evaluates
`proc.stderr.read()`, but `CompletedProcess.stderr` is a bytes object with no
`read` method, so an `AttributeError` is raised instead of the intended
ClickException carrying the diagnostic text. On exit 0 the decoded stdout is
returned. -/
def encrypt (cleartext : PyData) (_receiver_fingerprint : String)
    (run : EncRun) : Except Err String :=
  match cleartext with
  | .bytes _ => .error (.py bytesEncodeMsg)
  | .str _ =>
    if run.returncode != 0 then .error (.py bytesReadMsg)
    else .ok run.stdout

/-- Embedding of the `from` command (main.py lines 189-198): load the
registry, find the receiver, fetch its `rx_gist_id` gist (`g` is the parsed
response), resolve the fingerprint of the nickname (`gpgListLines` is the gpg
listing output) and hand BOTH results to `decrypt` — the fingerprint is
passed with no `None` check. `decRun` is the outcome of the gpg decrypt
subprocess on the fetched ciphertext. On success the plaintext is echoed. -/
def from_ (cfgFile : Option Json) (g : Gist) (gpgListLines : List String)
    (decRun : GpgRun) (nickname : String) : Except Err String :=
  match load_config cfgFile with
  | .error e => .error e
  | .ok config =>
    match config.receivers.find? (fun r => r.nickname == nickname) with
    | none => .error (.click (notFoundNickMsg nickname))
    | some _receiver =>
      match get_gist g with
      | .error e => .error e
      | .ok _encrypted =>
        match fingerprint_from_pattern gpgListLines with
        | .error e => .error e
        | .ok fp => decrypt decRun fp

/-- Embedding of the `to` command (main.py lines 201-214): load the registry,
find the receiver, resolve the fingerprint (here WITH a truthiness check),
read the message, encrypt, and publish to the `tx_gist_url` of the receiver.
Returns the raised error (if any) and the mailbox world after the call. -/
def to_ (cfgFile : Option Json) (gpgListLines : List String) (encRun : EncRun)
    (messageData : PyData) (nickname : String) (w : World) : Option Err × World :=
  match load_config cfgFile with
  | .error e => (some e, w)
  | .ok config =>
    match config.receivers.find? (fun r => r.nickname == nickname) with
    | none => (some (.click (notFoundNickMsg nickname)), w)
    | some receiver =>
      match fingerprint_from_pattern gpgListLines with
      | .error e => (some e, w)
      | .ok fp =>
        if !(pyTruthy fp) then (some (.click (notFoundKeyMsg nickname)), w)
        else
          match encrypt messageData (fp.getD "") encRun with
          | .error e => (some e, w)
          | .ok encrypted => set_gist w receiver.tx_gist_url encrypted

/-- A concrete starting world for the publish scenarios: the mailbox already
holds an older message and no working copy is cached yet. -/
def c6World : World := ⟨[("text.txt", "old")], none⟩

end Yeet

deriving instance DecidableEq for Except

namespace Yeet

lemma isPrefixOf_append_self (l t : List Char) : l.isPrefixOf (l ++ t) = true := by
  induction l with
  | nil => simp [List.isPrefixOf]
  | cons a l ih => simp [List.isPrefixOf, ih]

lemma strContainsAux_nil (l : List Char) : strContainsAux [] l = true := by
  cases l with
  | nil => rfl
  | cons c rest => simp [strContainsAux, List.isPrefixOf]

lemma strContainsAux_mid (needle pre post : List Char) :
    strContainsAux needle (pre ++ needle ++ post) = true := by
  induction pre with
  | nil =>
    cases needle with
    | nil => simpa using strContainsAux_nil post
    | cons c cs =>
      have h := isPrefixOf_append_self (c :: cs) post
      simp only [List.cons_append] at h
      simp [strContainsAux, h]
  | cons a pre ih =>
    simp only [List.cons_append, strContainsAux, List.append_assoc] at ih ⊢
    simp [ih]

lemma pyIn_of_append (s a b : String) : pyIn s (a ++ s ++ b) = true := by
  unfold pyIn
  rw [String.data_append, String.data_append]
  exact strContainsAux_mid s.data a.data b.data

lemma any_remoteLinesFor (url : String) :
    (remoteLinesFor url).any (fun x => pyIn url x) = true := by
  have h := pyIn_of_append url "origin\t" " (fetch)"
  simp [remoteLinesFor, h]

lemma dropThroughPub_none_iff (lines : List String) :
    dropThroughPub lines = none ↔ pubEntryCount lines = 0 := by
  induction lines with
  | nil => simp [dropThroughPub, pubEntryCount]
  | cons a l ih =>
    cases h : pyStartsWith a "pub:" with
    | false =>
      simp only [pubEntryCount, List.countP_cons, h] at ih ⊢
      simpa [dropThroughPub, h] using ih
    | true =>
      simp [dropThroughPub, pubEntryCount, List.countP_cons, h]

/-- Claim C8, confirmed: saving the registry and reloading it yields the same
registry in every recognized field and in insertion order, and loading an
empty registry file yields the empty registry rather than a parse error. -/
theorem config_roundtrip (c : Config) :
    load_config (some (save_config c)) = .ok c ∧ load_config none = .ok ⟨[]⟩ := by
  constructor
  · obtain ⟨rs⟩ := c
    have hrs : ∀ l : List Receiver,
        parseReceivers (l.map (fun r =>
          Json.obj [("nickname", .str r.nickname),
                    ("rx_gist_id", .str r.rx_gist_id),
                    ("tx_gist_url", .str r.tx_gist_url)])) = .ok l := by
      intro l
      induction l with
      | nil => rfl
      | cons r l ih => simp [parseReceivers, parseReceiver, jLookup, asStr, ih]
    simp [save_config, load_config, jLookup, hrs rs]
  · rfl

/-- Claim C5, code bug: on an endpoint with zero files `get_gist` raises an
uncaught `StopIteration` from `next(iter({}))` instead of the intended
FetchFailure (the `No file in gist` guard is unreachable for the empty case);
with one or more files it deterministically returns the `content` of the
first file. -/
theorem get_gist_zero_files :
    get_gist ⟨[]⟩ = .error (.py stopIterationMsg)
    ∧ get_gist ⟨[("message.txt", ⟨some "CIPHERTEXT"⟩),
                 ("other.txt", ⟨some "OTHER"⟩)]⟩ = .ok (some "CIPHERTEXT") := by
  constructor
  · rfl
  · rfl

/-- Claim C4, code bug: when the engine exits non-zero, `encrypt` evaluates
`proc.stderr.read()` on a bytes object and so raises `AttributeError` rather
than the intended ClickException carrying the diagnostic text (it is never a
`click` error at all); when the engine exits zero it returns the armored
ciphertext from stdout. -/
theorem encrypt_failure_behavior :
    encrypt (.str "hello") "FPR" ⟨2, "", "gpg: recipient not found"⟩
      = .error (.py bytesReadMsg)
    ∧ (∀ m, encrypt (.str "hello") "FPR" ⟨2, "", "gpg: recipient not found"⟩
        ≠ .error (.click m))
    ∧ encrypt (.str "hello") "FPR" ⟨0, "ARMORED", ""⟩ = .ok "ARMORED" := by
  refine ⟨rfl, ?_, rfl⟩
  intro m h
  simp [encrypt] at h

/-- Claim C1, counterexample: a run whose status stream reports a valid
signature made by identity AAAA1111 while the expected fingerprint BBBB2222
appears later in the same status line (as the primary-key fingerprint field
does in the real gpg VALIDSIG format). The signer identity differs from the
expected identity, yet `decrypt` succeeds and releases the plaintext, so the
claimed equivalence (and in particular that decryption never succeeds when
the signer differs from the expected fingerprint) is false. -/
theorem decrypt_signer_counterexample :
    decrypt ⟨0, "secret", ["[GNUPG:] VALIDSIG AAAA1111 1700000000 BBBB2222"]⟩
        (some "BBBB2222") = .ok "secret"
    ∧ signerOfStatusLine "[GNUPG:] VALIDSIG AAAA1111 1700000000 BBBB2222"
        = some "AAAA1111"
    ∧ "AAAA1111" ≠ "BBBB2222" := by
  refine ⟨by decide, by decide, by decide⟩

/-- Claim C1, amended: when the status stream has a VALIDSIG line, `decrypt`
fails with the SignerMismatch error exactly when the expected fingerprint
does NOT occur as a substring of that whole status line, and it releases the
plaintext exactly when it does occur — the check is substring containment
over the line, not equality with the signer identity. -/
theorem decrypt_signer_check (run : GpgRun) (fp l : String)
    (h : run.statusLines.find? (fun s => pyIn " VALIDSIG " s) = some l) :
    (decrypt run (some fp) = .error (.click signerMismatchMsg) ↔ pyIn fp l = false)
    ∧ (decrypt run (some fp) = .ok run.stdout ↔ pyIn fp l = true) := by
  unfold decrypt
  rw [h]
  cases hb : pyIn fp l <;> simp [hb, sigMissingMsg, signerMismatchMsg]

theorem decrypt_signer_check_witness :
    decrypt ⟨0, "pt", ["[GNUPG:] VALIDSIG F00D 1"]⟩ (some "ZZZZ")
      = .error (.click signerMismatchMsg) :=
  ((decrypt_signer_check ⟨0, "pt", ["[GNUPG:] VALIDSIG F00D 1"]⟩ "ZZZZ"
      "[GNUPG:] VALIDSIG F00D 1" (by decide)).1).mpr (by decide)

/-- Claim C2, counterexample: a failed decryption (exit code 2, gpg report
DECRYPTION_FAILED, no plaintext) is reported with the very same
SignatureMissing ClickException as a successful decryption of an unsigned
message, so decryption failures are not a distinct DecryptFailure and the
two security cases cannot be distinguished by a caller. -/
theorem decrypt_conflation_counterexample :
    decrypt ⟨2, "", ["[GNUPG:] ERROR decrypt.algorithm", "[GNUPG:] DECRYPTION_FAILED"]⟩
        (some "F00D") = .error (.click sigMissingMsg)
    ∧ decrypt ⟨2, "", ["[GNUPG:] ERROR decrypt.algorithm", "[GNUPG:] DECRYPTION_FAILED"]⟩
        (some "F00D")
      = decrypt ⟨0, "plain", []⟩ (some "F00D") := by
  refine ⟨by decide, by decide⟩

/-- Claim C2, amended: `decrypt` never inspects the exit code; every run
whose status stream has no VALIDSIG line — wrong key and corrupt ciphertext
included — is reported with the single SignatureMissing error, so only
SignerMismatch is distinguishable and no separate DecryptFailure exists. -/
theorem decrypt_no_validsig (run : GpgRun) (fp : Option String)
    (h : run.statusLines.find? (fun s => pyIn " VALIDSIG " s) = none) :
    decrypt run fp = .error (.click sigMissingMsg) := by
  unfold decrypt
  rw [h]

theorem decrypt_no_validsig_witness :
    decrypt ⟨2, "wrong key output", ["[GNUPG:] NO_SECKEY"]⟩ none
      = .error (.click sigMissingMsg) :=
  decrypt_no_validsig ⟨2, "wrong key output", ["[GNUPG:] NO_SECKEY"]⟩ none (by decide)

/-- Claim C3, counterexample: a listing with two matching public-key entries
(two `pub:` blocks). The resolver does not require exactly one match: it
returns the fingerprint of the first entry instead of reporting NotFound. -/
theorem resolver_two_entries_counterexample :
    pubEntryCount ["pub:u:first:", "fpr:::::::::AAAA:", "uid:first:",
                   "pub:u:second:", "fpr:::::::::BBBB:"] = 2
    ∧ fingerprint_from_pattern ["pub:u:first:", "fpr:::::::::AAAA:", "uid:first:",
                                "pub:u:second:", "fpr:::::::::BBBB:"]
        = .ok (some "AAAA") := by
  refine ⟨by decide, by decide⟩

/-- Claim C3, amended: the resolver returns NotFound (`None`) when zero
entries match or when no `fpr:` record follows the first `pub:` entry, and it
returns a fingerprint only when at least one — not exactly one — entry
matches: field 9 of the first `fpr:` line after the first `pub:` line. -/
theorem resolver_matching (lines : List String) :
    (pubEntryCount lines = 0 → fingerprint_from_pattern lines = .ok none)
    ∧ (∀ rest, dropThroughPub lines = some rest →
        rest.find? (fun l => pyStartsWith l "fpr:") = none →
        fingerprint_from_pattern lines = .ok none)
    ∧ (∀ fp, fingerprint_from_pattern lines = .ok (some fp) →
        0 < pubEntryCount lines) := by
  refine ⟨?_, ?_, ?_⟩
  · intro h
    have hd : dropThroughPub lines = none := (dropThroughPub_none_iff lines).mpr h
    simp [fingerprint_from_pattern, hd]
  · intro rest h1 h2
    simp [fingerprint_from_pattern, h1, h2]
  · intro fp h
    rcases Nat.eq_zero_or_pos (pubEntryCount lines) with h0 | h0
    · have hd : dropThroughPub lines = none := (dropThroughPub_none_iff lines).mpr h0
      simp [fingerprint_from_pattern, hd] at h
    · exact h0

theorem resolver_matching_witness :
    fingerprint_from_pattern ["gpg: error reading key"] = .ok none :=
  (resolver_matching ["gpg: error reading key"]).1 (by decide)

/-- The repository ensured by `ensure_repo_exists` always exists, and its
recorded origin lines contain the url (either they already did, or a fresh
clone recorded them). -/
lemma ensure_repo_exists_localRepo (w : World) (url : String) :
    ∃ repo, (ensure_repo_exists w url).localRepo = some repo
      ∧ repo.originLines.any (fun x => pyIn url x) = true := by
  unfold ensure_repo_exists
  cases hmc : mustClone w url with
  | true =>
    exact ⟨⟨remoteLinesFor url, some w.remoteTree, w.remoteTree⟩,
           by simp, any_remoteLinesFor url⟩
  | false =>
    unfold mustClone at hmc
    cases hw : w.localRepo with
    | none => rw [hw] at hmc; exact absurd hmc (by simp)
    | some repo =>
      rw [hw] at hmc
      have hmc2 : (!(repo.originLines.any fun x => pyIn url x)) = false := hmc
      cases hb : repo.originLines.any (fun x => pyIn url x) with
      | true => exact ⟨repo, by simp [hw], hb⟩
      | false => rw [hb] at hmc2; exact absurd hmc2 (by simp)

/-- After any successful `set_gist`, the mailbox holds exactly one `text.txt`
with the published content, and the cached working copy has that same tree
both checked out and at HEAD, with origin lines matching the url. -/
lemma set_gist_success_shape (w : World) (url c : String)
    (h : (set_gist w url c).fst = none) :
    ∃ lines, (set_gist w url c).snd =
        ⟨[("text.txt", c)], some ⟨lines, some [("text.txt", c)], [("text.txt", c)]⟩⟩
      ∧ lines.any (fun x => pyIn url x) = true := by
  obtain ⟨repo, hrepo, hany⟩ := ensure_repo_exists_localRepo w url
  simp only [set_gist] at h ⊢
  rw [hrepo] at h ⊢
  simp only [set_repo_message, commit_and_push] at h ⊢
  cases hn : nothingToCommit { repo with workTree := [("text.txt", c)] } with
  | true => rw [hn] at h; simp at h
  | false =>
    refine ⟨repo.originLines, ?_, hany⟩
    simp

/-- Claim C6, counterexample: from a world whose mailbox holds an older
message and with no cached working copy, publishing `hello` succeeds, but
publishing the very same content again does not succeed: the second call
fails at the `git commit` step (nothing to commit, and the run is checked).
So publishing the same content twice in a row does NOT succeed both times. -/
theorem publish_twice_counterexample :
    (set_gist c6World "https://example/bob-tx.git" "hello").fst = none
    ∧ (set_gist (set_gist c6World "https://example/bob-tx.git" "hello").snd
        "https://example/bob-tx.git" "hello").fst = some (.proc "git commit") := by
  refine ⟨by decide, by decide⟩

/-- Claim C6, amended: after a successful publish, republishing the same
content fails with a PublishFailure at the `git commit` step (the tree is
unchanged, so the checked `git commit` exits non-zero); the mailbox is
nevertheless left in the same observable state, a single `text.txt` with the
same bytes as after the first publish. -/
theorem publish_twice_second_fails (w : World) (url c : String)
    (h : (set_gist w url c).fst = none) :
    (set_gist (set_gist w url c).snd url c).fst = some (.proc "git commit")
    ∧ (set_gist (set_gist w url c).snd url c).snd.remoteTree
        = (set_gist w url c).snd.remoteTree
    ∧ (set_gist w url c).snd.remoteTree = [("text.txt", c)] := by
  obtain ⟨lines, hs, ha⟩ := set_gist_success_shape w url c h
  rw [hs]
  have hmc : mustClone
      ⟨[("text.txt", c)], some ⟨lines, some [("text.txt", c)], [("text.txt", c)]⟩⟩
      url = false := by
    simp [mustClone, ha]
  simp [set_gist, ensure_repo_exists, hmc, set_repo_message, commit_and_push,
        nothingToCommit]

theorem publish_twice_second_fails_witness :
    (set_gist (set_gist ⟨[("text.txt", "old")], none⟩ "https://example/alice.git"
        "hi").snd "https://example/alice.git" "hi").fst
      = some (.proc "git commit") :=
  (publish_twice_second_fails ⟨[("text.txt", "old")], none⟩
    "https://example/alice.git" "hi" (by decide)).1

/-- Auxiliary for the registry claim: every failing `add_receiver` call
leaves the persisted registry file unchanged (only the success path calls
`save_config`). -/
lemma add_receiver_fail_keeps (gpgListLines : List String) (cfgFile : Option Json)
    (n rx tx : String) :
    (add_receiver gpgListLines cfgFile n rx tx).snd = cfgFile
    ∨ (add_receiver gpgListLines cfgFile n rx tx).fst = none := by
  unfold add_receiver
  cases fingerprint_from_pattern gpgListLines with
  | error e => exact Or.inl rfl
  | ok fp =>
    cases hb : (!(pyTruthy fp)) with
    | true => simp [hb]
    | false =>
      simp only [hb, Bool.false_eq_true, if_false]
      cases load_config cfgFile with
      | error e => exact Or.inl rfl
      | ok config =>
        cases hany : config.receivers.any (fun r => r.nickname == n) with
        | true => simp [hany]
        | false => simp [hany]

/-- Claim C7, confirmed: `add-receiver` fails with the NotFound error when no
key resolves for the nickname, fails with the duplicate error when the
nickname is already registered, leaves the persisted registry file unchanged
in every failure case, and on success appends exactly the new record. -/
theorem add_receiver_contract (gpgListLines : List String) (cfgFile : Option Json)
    (n rx tx : String) :
    (fingerprint_from_pattern gpgListLines = .ok none →
      add_receiver gpgListLines cfgFile n rx tx
        = (some (.click (notFoundKeyMsg n)), cfgFile))
    ∧ (∀ e, (add_receiver gpgListLines cfgFile n rx tx).fst = some e →
        (add_receiver gpgListLines cfgFile n rx tx).snd = cfgFile)
    ∧ (∀ fp cfg, fingerprint_from_pattern gpgListLines = .ok (some fp) → fp ≠ "" →
        load_config cfgFile = .ok cfg →
        ((cfg.receivers.any fun r => r.nickname == n) = true →
          add_receiver gpgListLines cfgFile n rx tx
            = (some (.click (alreadyConfiguredMsg n)), cfgFile))
        ∧ ((cfg.receivers.any fun r => r.nickname == n) = false →
          add_receiver gpgListLines cfgFile n rx tx
            = (none, some (save_config ⟨cfg.receivers ++ [⟨n, rx, tx⟩]⟩)))) := by
  refine ⟨?_, ?_, ?_⟩
  · intro h
    simp [add_receiver, h, pyTruthy]
  · intro e he
    rcases add_receiver_fail_keeps gpgListLines cfgFile n rx tx with h | h
    · exact h
    · rw [he] at h; cases h
  · intro fp cfg h1 h2 h3
    constructor
    · intro h4
      simp [add_receiver, h1, h3, h4, pyTruthy, h2]
    · intro h4
      simp [add_receiver, h1, h3, h4, pyTruthy, h2]

theorem add_receiver_contract_witness :
    add_receiver ["pub:u::::::::bob:", "fpr:::::::::AAAA1111:"] none "bob" "bob-rx"
        "https://example/bob-tx.git"
      = (none, some (save_config
          ⟨[⟨"bob", "bob-rx", "https://example/bob-tx.git"⟩]⟩)) :=
  ((add_receiver_contract ["pub:u::::::::bob:", "fpr:::::::::AAAA1111:"] none
      "bob" "bob-rx" "https://example/bob-tx.git").2.2 "AAAA1111" ⟨[]⟩
      (by decide) (by decide) rfl).2 (by decide)

/-- Claim C9, confirmed: in the Receive flow, when the nickname is registered
and the gist fetch succeeds but the key resolver returns `None`, and the
fetched ciphertext reports a valid signature, the membership test
`fingerprint not in sig_line` is evaluated with a `None` left operand: the
flow aborts with a Python `TypeError` and not with any ClickException (in
particular not a NotFound result). -/
theorem receive_unresolved_key_type_error (cfgFile : Option Json) (g : Gist)
    (gpgListLines : List String) (decRun : GpgRun) (n : String)
    (cfg : Config) (r : Receiver) (oc : Option String) (l : String)
    (hload : load_config cfgFile = .ok cfg)
    (hfind : cfg.receivers.find? (fun x => x.nickname == n) = some r)
    (hg : get_gist g = .ok oc)
    (hfp : fingerprint_from_pattern gpgListLines = .ok none)
    (hsig : decRun.statusLines.find? (fun s => pyIn " VALIDSIG " s) = some l) :
    from_ cfgFile g gpgListLines decRun n = .error (.py noneInStrMsg)
    ∧ ∀ m, from_ cfgFile g gpgListLines decRun n ≠ .error (.click m) := by
  have hmain : from_ cfgFile g gpgListLines decRun n = .error (.py noneInStrMsg) := by
    simp [from_, hload, hfind, hg, hfp, decrypt, hsig]
  refine ⟨hmain, ?_⟩
  intro m
  rw [hmain]
  simp

theorem receive_unresolved_key_type_error_witness :
    from_ (some (save_config ⟨[⟨"bob", "bob-rx", "https://example/bob-tx.git"⟩]⟩))
        ⟨[("text.txt", ⟨some "ARMORED"⟩)]⟩ []
        ⟨0, "hello", ["[GNUPG:] VALIDSIG AAAA1111 1 2"]⟩ "bob"
      = .error (.py noneInStrMsg) :=
  (receive_unresolved_key_type_error
    (some (save_config ⟨[⟨"bob", "bob-rx", "https://example/bob-tx.git"⟩]⟩))
    ⟨[("text.txt", ⟨some "ARMORED"⟩)]⟩ []
    ⟨0, "hello", ["[GNUPG:] VALIDSIG AAAA1111 1 2"]⟩ "bob"
    ⟨[⟨"bob", "bob-rx", "https://example/bob-tx.git"⟩]⟩
    ⟨"bob", "bob-rx", "https://example/bob-tx.git"⟩ (some "ARMORED")
    "[GNUPG:] VALIDSIG AAAA1111 1 2"
    (by decide) (by decide) (by decide) (by decide) (by decide)).1

/-- Claim C10, confirmed: in the Send flow with a registered nickname and a
resolving key, a message read from a named file is `bytes`, so the flow fails
with the `encode` AttributeError before any encryption or publish and the
mailbox world is untouched; with the message from standard input (a `str`)
and a cleanly exiting engine the flow proceeds all the way to publishing the
armored ciphertext to the recorded `tx_gist_url`. -/
theorem send_binary_file_fails (cfgFile : Option Json) (gpgListLines : List String)
    (encRun : EncRun) (b s n : String) (w : World) (cfg : Config) (r : Receiver)
    (fp : String)
    (hload : load_config cfgFile = .ok cfg)
    (hfind : cfg.receivers.find? (fun x => x.nickname == n) = some r)
    (hfp : fingerprint_from_pattern gpgListLines = .ok (some fp))
    (hfp2 : fp ≠ "") :
    to_ cfgFile gpgListLines encRun (.bytes b) n w = (some (.py bytesEncodeMsg), w)
    ∧ (encRun.returncode = 0 →
        to_ cfgFile gpgListLines encRun (.str s) n w
          = set_gist w r.tx_gist_url encRun.stdout) := by
  constructor
  · simp [to_, hload, hfind, hfp, pyTruthy, hfp2, encrypt]
  · intro h0
    simp [to_, hload, hfind, hfp, pyTruthy, hfp2, encrypt, h0]

theorem send_binary_file_fails_witness :
    to_ (some (save_config ⟨[⟨"bob", "bob-rx", "https://example/bob-tx.git"⟩]⟩))
        ["pub:u::::::::bob:", "fpr:::::::::AAAA1111:"] ⟨0, "ARMORED", ""⟩
        (.bytes "binary message") "bob" ⟨[("text.txt", "old")], none⟩
      = (some (.py bytesEncodeMsg), ⟨[("text.txt", "old")], none⟩) :=
  (send_binary_file_fails
    (some (save_config ⟨[⟨"bob", "bob-rx", "https://example/bob-tx.git"⟩]⟩))
    ["pub:u::::::::bob:", "fpr:::::::::AAAA1111:"] ⟨0, "ARMORED", ""⟩
    "binary message" "unused stdin" "bob" ⟨[("text.txt", "old")], none⟩
    ⟨[⟨"bob", "bob-rx", "https://example/bob-tx.git"⟩]⟩
    ⟨"bob", "bob-rx", "https://example/bob-tx.git"⟩ "AAAA1111"
    (by decide) (by decide) (by decide) (by decide)).1

end Yeet
